import Mathlib

/-!
Shallow embedding of `src/te/httpengine/mitm/http/HttpResponse.cpp` (class
`te::httpengine::mitm::http::HttpResponse`), covering the status-line state
(status code, protocol version, status-line text), the reason-phrase table,
the header serializers, and the status-line callback installed into the
external streaming http parser.
-/

namespace HttpFilteringEngine

/-- Protocol version tag stored in the transaction. The enumeration is
declared in the base-transaction header, which is not part of this slice;
the three enumerators compared against in `HttpResponse::StatusCode(uint16_t)`
are `HTTP1`, `HTTP1_1` and `HTTP2`, and `Unset` models any value that is none
of those three (the setter then appends no version token). -/
inductive HttpProtocolVersion where
  | Unset
  | HTTP1
  | HTTP1_1
  | HTTP2
  deriving DecidableEq, Repr

/-- State of one `HttpResponse` transaction: the members `m_statusCode`
(a `uint16_t`, modelled as `Nat`), `m_httpVersion` (inherited member),
`m_statusString`, and the header collection `m_headers` owned by the base
transaction and read by `HeadersToString`, as an ordered list of
name/value pairs. -/
structure HttpResponse where
  m_statusCode : Nat
  m_httpVersion : HttpProtocolVersion
  m_statusString : String
  m_headers : List (String × String)
  deriving DecidableEq, Repr

namespace HttpResponse

/-- Embedding of `HttpResponse::StatusCodeToMessage(const uint16_t&)`: the
73-case `switch` on the status code, whose `default` branch returns the
empty string. -/
def StatusCodeToMessage (code : Nat) : String :=
  if code = 100 then "Continue"
  else if code = 101 then "Switching Protocols"
  else if code = 102 then "Processing"
  else if code = 200 then "OK"
  else if code = 201 then "Created"
  else if code = 202 then "Accepted"
  else if code = 203 then "Non-Authoritative Information"
  else if code = 204 then "No Content"
  else if code = 205 then "Reset Content"
  else if code = 206 then "Partial Content"
  else if code = 207 then "Multi-Status"
  else if code = 208 then "Already Reported"
  else if code = 226 then "IM Used"
  else if code = 300 then "Multiple Choices"
  else if code = 301 then "Moved Permanently"
  else if code = 302 then "Found"
  else if code = 303 then "See Other"
  else if code = 304 then "Not Modified"
  else if code = 305 then "Use Proxy"
  else if code = 306 then "Switch Proxy"
  else if code = 307 then "Temporary Redirect"
  else if code = 308 then "Permanent Redirect"
  else if code = 400 then "Bad Request"
  else if code = 401 then "Unauthorized"
  else if code = 402 then "Payment Required"
  else if code = 403 then "Forbidden"
  else if code = 404 then "Not Found"
  else if code = 405 then "Method Not Allowed"
  else if code = 406 then "Not Acceptable"
  else if code = 407 then "Proxy Authentication Required"
  else if code = 408 then "Request Timeout"
  else if code = 409 then "Conflict"
  else if code = 410 then "Gone"
  else if code = 411 then "Length Required"
  else if code = 412 then "Precondition Failed"
  else if code = 413 then "Request Entity Too Large"
  else if code = 414 then "Request-URI Too Long"
  else if code = 415 then "Unsupported Media Type"
  else if code = 416 then "Requested Range Not Satisfiable"
  else if code = 417 then "Expectation Failed"
  else if code = 418 then "I\x27m a teapot"
  else if code = 419 then "Authentication Timeout"
  else if code = 420 then "Method Failure"
  else if code = 422 then "Unprocessable Entity"
  else if code = 423 then "Locked"
  else if code = 424 then "Failed Dependency"
  else if code = 426 then "Upgrade Required"
  else if code = 428 then "Precondition Required"
  else if code = 429 then "Too Many Requests"
  else if code = 431 then "Request Header Fields Too Large"
  else if code = 440 then "Login Timeout"
  else if code = 444 then "No Response"
  else if code = 449 then "Retry With"
  else if code = 450 then "Blocked by Windows Parental Controls"
  else if code = 451 then "Unavailable For Legal Reasons"
  else if code = 494 then "Request Header Too Large"
  else if code = 495 then "Cert Error"
  else if code = 496 then "No Cert"
  else if code = 497 then "HTTP to HTTPS"
  else if code = 498 then "Token expired/invalid"
  else if code = 499 then "Client Closed Request"
  else if code = 500 then "Internal Server Error"
  else if code = 501 then "Not Implemented"
  else if code = 502 then "Bad Gateway"
  else if code = 503 then "Service Unavailable"
  else if code = 504 then "Gateway Timeout"
  else if code = 505 then "HTTP Version Not Supported"
  else if code = 506 then "Variant Also Negotiates"
  else if code = 508 then "Loop Detected"
  else if code = 509 then "Bandwidth Limit Exceeded"
  else if code = 510 then "Not Extended"
  else if code = 598 then "Network read timeout error"
  else if code = 599 then "Network connect timeout error"
  else ""

/-- Exactly the status codes that carry a `case` label in the `switch` of
`StatusCodeToMessage`. -/
def tableCodes : List Nat :=
  [100, 101, 102, 200, 201, 202, 203, 204, 205, 206, 207, 208, 226,
   300, 301, 302, 303, 304, 305, 306, 307, 308,
   400, 401, 402, 403, 404, 405, 406, 407, 408, 409, 410, 411, 412, 413,
   414, 415, 416, 417, 418, 419, 420, 422, 423, 424, 426, 428, 429, 431,
   440, 444, 449, 450, 451, 494, 495, 496, 497, 498, 499,
   500, 501, 502, 503, 504, 505, 506, 508, 509, 510, 598, 599]

/-- Embedding of the getter `HttpResponse::StatusCode() const`: returns
`m_statusCode`. -/
def StatusCode (r : HttpResponse) : Nat :=
  r.m_statusCode

/-- Embedding of the setter `HttpResponse::StatusCode(const uint16_t)`:
stores the code, clears `m_statusString`, appends a version token chosen by
the if/else-if chain on `m_httpVersion` (nothing is appended when the
version is none of the three enumerators), then appends the decimal
rendering of the code, a space, and `StatusCodeToMessage code`. -/
def SetStatusCode (r : HttpResponse) (code : Nat) : HttpResponse :=
  let cleared : String := ""
  let withVersion : String :=
    if r.m_httpVersion = HttpProtocolVersion.HTTP1 then cleared ++ "HTTP/1.0 "
    else if r.m_httpVersion = HttpProtocolVersion.HTTP1_1 then cleared ++ "HTTP/1.1 "
    else if r.m_httpVersion = HttpProtocolVersion.HTTP2 then cleared ++ "HTTP/2.0 "
    else cleared
  let full : String := withVersion ++ Nat.repr code ++ " " ++ StatusCodeToMessage code
  { r with m_statusCode := code, m_statusString := full }

/-- Embedding of the getter `HttpResponse::StatusString() const`: returns
`m_statusString`. -/
def StatusString (r : HttpResponse) : String :=
  r.m_statusString

/-- Embedding of the setter `HttpResponse::StatusString(const std::string&)`:
overwrites `m_statusString` with the argument and touches nothing else. -/
def SetStatusString (r : HttpResponse) (status : String) : HttpResponse :=
  { r with m_statusString := status }

/-- Embedding of `HttpResponse::HeadersToString()`: starts from
`m_statusString`, then for each header pair in iteration order appends
`"\r\n" ++ name ++ ": " ++ value`, and finally appends `"\r\n\r\n"`. -/
def HeadersToString (r : HttpResponse) : String :=
  (r.m_headers.foldl (fun ret h => ret ++ "\r\n" ++ h.1 ++ ": " ++ h.2)
    r.m_statusString) ++ "\r\n\r\n"

/-- Embedding of `HttpResponse::HeadersToVector()`: builds
`HeadersToString` and copies its characters into a `std::vector<char>`, that
is, the byte content of the string, which for a Lean `String` is the UTF-8
encoding of its character data. -/
def HeadersToVector (r : HttpResponse) : List UInt8 :=
  (HeadersToString r).data.flatMap String.utf8EncodeChar

end HttpResponse

/-- State of the external streaming http parser as seen by the `OnStatus`
callback: the reported major and minor version fields, the reported numeric
status code, and the `data` context pointer holding the owning transaction
(`none` models a null pointer). -/
structure HttpParserState where
  http_major : Nat
  http_minor : Nat
  status_code : Nat
  data : Option HttpResponse
  deriving DecidableEq, Repr

namespace HttpResponse

/-- The if/else-if chain on the reported major/minor version inside
`HttpResponse::OnStatus`, factored out: major 1 with minor 0 gives
`HTTP1`, major 1 with any other minor gives `HTTP1_1`, major 2 gives
`HTTP2`, and any other major falls back to `HTTP1_1`. -/
def versionFromParsed (major minor : Nat) : HttpProtocolVersion :=
  if major = 1 then
    if minor = 0 then HttpProtocolVersion.HTTP1
    else HttpProtocolVersion.HTTP1_1
  else if major = 2 then HttpProtocolVersion.HTTP2
  else HttpProtocolVersion.HTTP1_1

/-- Embedding of the static callback
`HttpResponse::OnStatus(http_parser*, const char* at, size_t length)`.
The first argument models the parser pointer (`none` is a null pointer);
`a` and `length` model the raw reason-phrase bytes, which the body never
reads. A null parser or a null `data` context returns `-1` and mutates
nothing; otherwise the version chain runs, `SetStatusCode` is called with
the reported code, and `0` is returned. The mutation of the pointed-to
transaction is modelled by returning the updated parser state. -/
def OnStatus (parser : Option HttpParserState) (a : List UInt8) (length : Nat) :
    Int × Option HttpParserState :=
  match parser with
  | some p =>
    match p.data with
    | none => (-1, some p)
    | some tr =>
      let tr2 := { tr with
        m_httpVersion := versionFromParsed p.http_major p.http_minor }
      let tr3 := SetStatusCode tr2 p.status_code
      (0, some { p with data := some tr3 })
  | none => (-1, none)

/-- Decides whether the callback context is missing: a null parser pointer,
or a parser whose `data` slot holds no transaction. -/
def contextMissing : Option HttpParserState → Bool
  | none => true
  | some p => p.data.isNone

end HttpResponse

/-- Modelled from the spec: the constructor `HttpResponse::HttpResponse()`
only installs the callback and allocates the parser handle. The member
`m_statusCode` is a plain `uint16_t` declared without an initializer in the
header and absent from the constructor, so its initial value is
indeterminate; the model exposes that indeterminate value as the `junk`
parameter. `m_statusString` is a default-constructed `std::string`, hence
empty. The initial protocol version and the empty header collection live in
the base transaction, whose source is not in this slice; the spec states
they start as `Unset` and empty. -/
def mkHttpResponse (junk : Nat) : HttpResponse :=
  { m_statusCode := junk
    m_httpVersion := HttpProtocolVersion.Unset
    m_statusString := ""
    m_headers := [] }

/-- Spec-side rendering of the version token: the text that the claims say
precedes the status code, empty when the version is `Unset`. -/
def versionToken : HttpProtocolVersion → String
  | HttpProtocolVersion.Unset => ""
  | HttpProtocolVersion.HTTP1 => "HTTP/1.0 "
  | HttpProtocolVersion.HTTP1_1 => "HTTP/1.1 "
  | HttpProtocolVersion.HTTP2 => "HTTP/2.0 "

/-- Spec-side rendering of the header block: for each pair, CRLF then
`name: value`. -/
def headerLines : List (String × String) → String
  | [] => ""
  | h :: t => "\r\n" ++ h.1 ++ ": " ++ h.2 ++ headerLines t

/-- Folding the per-header append of `HeadersToString` over any starting
string produces that string followed by the spec-side header block. -/
theorem headers_foldl_append (l : List (String × String)) (init : String) :
    l.foldl (fun ret h => ret ++ "\r\n" ++ h.1 ++ ": " ++ h.2) init =
      init ++ headerLines l := by
  induction l generalizing init with
  | nil => simp [headerLines]
  | cons h t ih =>
    simp only [List.foldl_cons, headerLines, ih]
    simp [String.append_assoc]

/-- C1: after any call to the code-setter `SetStatusCode`, the stored status
line text is exactly the version token (`"HTTP/1.0 "`, `"HTTP/1.1 "`,
`"HTTP/2.0 "`, or nothing at all — no leading space — for `Unset`), then the
decimal code, a space, and the canonical phrase for the code, regardless of
any text previously stored by the text-setter. -/
theorem c1_set_status_code_rebuilds_line (r : HttpResponse) (c : Nat) :
    (HttpResponse.SetStatusCode r c).m_statusString =
      versionToken r.m_httpVersion ++ Nat.repr c ++ " " ++
        HttpResponse.StatusCodeToMessage c := by
  cases r with
  | mk sc v ss hs => cases v <;> rfl

/-- C2: the claim that a freshly constructed transaction has status code 0.
The constructor leaves `m_statusCode` uninitialized, so the model takes the
indeterminate initial value as a parameter; with indeterminate value 7 the
fresh transaction reports status code 7, not 0, while the status line text
is indeed empty. -/
theorem c2_fresh_status_code_indeterminate :
    (mkHttpResponse 7).m_statusString = "" ∧
    HttpResponse.StatusCode (mkHttpResponse 7) = 7 ∧
    HttpResponse.StatusCode (mkHttpResponse 7) ≠ 0 :=
  ⟨rfl, rfl, by decide⟩

/-- C3: `StatusCodeToMessage` returns the empty string for every code
outside the case table (never failing), the sampled table entries map to
their canonical phrases, and `SetStatusCode 999` under version `HTTP1_1`
renders `"HTTP/1.1 999 "` with a trailing space and empty phrase. -/
theorem c3_reason_phrase_table (c : Nat) (hc : c ∉ HttpResponse.tableCodes)
    (r : HttpResponse) (hr : r.m_httpVersion = HttpProtocolVersion.HTTP1_1) :
    HttpResponse.StatusCodeToMessage c = "" ∧
    HttpResponse.StatusCodeToMessage 100 = "Continue" ∧
    HttpResponse.StatusCodeToMessage 200 = "OK" ∧
    HttpResponse.StatusCodeToMessage 404 = "Not Found" ∧
    HttpResponse.StatusCodeToMessage 451 = "Unavailable For Legal Reasons" ∧
    HttpResponse.StatusCodeToMessage 599 = "Network connect timeout error" ∧
    (HttpResponse.SetStatusCode r 999).m_statusString = "HTTP/1.1 999 " := by
  refine ⟨?_, rfl, rfl, rfl, rfl, rfl, ?_⟩
  · have hk : ∀ k, k ∈ HttpResponse.tableCodes → ¬(c = k) :=
      fun k hkmem he => hc (he ▸ hkmem)
    unfold HttpResponse.StatusCodeToMessage
    rw [if_neg (hk 100 (by decide)),
      if_neg (hk 101 (by decide)),
      if_neg (hk 102 (by decide)),
      if_neg (hk 200 (by decide)),
      if_neg (hk 201 (by decide)),
      if_neg (hk 202 (by decide)),
      if_neg (hk 203 (by decide)),
      if_neg (hk 204 (by decide)),
      if_neg (hk 205 (by decide)),
      if_neg (hk 206 (by decide)),
      if_neg (hk 207 (by decide)),
      if_neg (hk 208 (by decide)),
      if_neg (hk 226 (by decide)),
      if_neg (hk 300 (by decide)),
      if_neg (hk 301 (by decide)),
      if_neg (hk 302 (by decide)),
      if_neg (hk 303 (by decide)),
      if_neg (hk 304 (by decide)),
      if_neg (hk 305 (by decide)),
      if_neg (hk 306 (by decide)),
      if_neg (hk 307 (by decide)),
      if_neg (hk 308 (by decide)),
      if_neg (hk 400 (by decide)),
      if_neg (hk 401 (by decide)),
      if_neg (hk 402 (by decide)),
      if_neg (hk 403 (by decide)),
      if_neg (hk 404 (by decide)),
      if_neg (hk 405 (by decide)),
      if_neg (hk 406 (by decide)),
      if_neg (hk 407 (by decide)),
      if_neg (hk 408 (by decide)),
      if_neg (hk 409 (by decide)),
      if_neg (hk 410 (by decide)),
      if_neg (hk 411 (by decide)),
      if_neg (hk 412 (by decide)),
      if_neg (hk 413 (by decide)),
      if_neg (hk 414 (by decide)),
      if_neg (hk 415 (by decide)),
      if_neg (hk 416 (by decide)),
      if_neg (hk 417 (by decide)),
      if_neg (hk 418 (by decide)),
      if_neg (hk 419 (by decide)),
      if_neg (hk 420 (by decide)),
      if_neg (hk 422 (by decide)),
      if_neg (hk 423 (by decide)),
      if_neg (hk 424 (by decide)),
      if_neg (hk 426 (by decide)),
      if_neg (hk 428 (by decide)),
      if_neg (hk 429 (by decide)),
      if_neg (hk 431 (by decide)),
      if_neg (hk 440 (by decide)),
      if_neg (hk 444 (by decide)),
      if_neg (hk 449 (by decide)),
      if_neg (hk 450 (by decide)),
      if_neg (hk 451 (by decide)),
      if_neg (hk 494 (by decide)),
      if_neg (hk 495 (by decide)),
      if_neg (hk 496 (by decide)),
      if_neg (hk 497 (by decide)),
      if_neg (hk 498 (by decide)),
      if_neg (hk 499 (by decide)),
      if_neg (hk 500 (by decide)),
      if_neg (hk 501 (by decide)),
      if_neg (hk 502 (by decide)),
      if_neg (hk 503 (by decide)),
      if_neg (hk 504 (by decide)),
      if_neg (hk 505 (by decide)),
      if_neg (hk 506 (by decide)),
      if_neg (hk 508 (by decide)),
      if_neg (hk 509 (by decide)),
      if_neg (hk 510 (by decide)),
      if_neg (hk 598 (by decide)),
      if_neg (hk 599 (by decide))]
  · cases r with
    | mk sc v ss hs =>
      have hv : v = HttpProtocolVersion.HTTP1_1 := hr
      subst hv
      rfl

/-- Witness for C3 at the concrete off-table code 977 and a concrete
transaction carrying version `HTTP1_1`. -/
theorem c3_reason_phrase_table_witness :
    HttpResponse.StatusCodeToMessage 977 = "" ∧
    HttpResponse.StatusCodeToMessage 100 = "Continue" ∧
    HttpResponse.StatusCodeToMessage 200 = "OK" ∧
    HttpResponse.StatusCodeToMessage 404 = "Not Found" ∧
    HttpResponse.StatusCodeToMessage 451 = "Unavailable For Legal Reasons" ∧
    HttpResponse.StatusCodeToMessage 599 = "Network connect timeout error" ∧
    (HttpResponse.SetStatusCode
      ⟨0, HttpProtocolVersion.HTTP1_1, "", []⟩ 999).m_statusString =
      "HTTP/1.1 999 " :=
  c3_reason_phrase_table 977 (by decide)
    ⟨0, HttpProtocolVersion.HTTP1_1, "", []⟩ rfl

/-- C4: the text serializer returns the status line text, then for each
header pair in iteration order CRLF and `name: value`, then a final double
CRLF; on the sample state it yields the expected preamble. -/
theorem c4_headers_to_string (r : HttpResponse) :
    HttpResponse.HeadersToString r =
      r.m_statusString ++ headerLines r.m_headers ++ "\r\n\r\n" ∧
    HttpResponse.HeadersToString
        ⟨200, HttpProtocolVersion.HTTP1_1, "HTTP/1.1 200 OK",
         [("Content-Type", "text/html"), ("X-Test", "1")]⟩ =
      "HTTP/1.1 200 OK\r\nContent-Type: text/html\r\nX-Test: 1\r\n\r\n" := by
  constructor
  · unfold HttpResponse.HeadersToString
    rw [headers_foldl_append]
  · rfl

/-- C5: the byte serializer is byte-for-byte the UTF-8 encoding of the text
serializer on the same state, and on the sample state it produces exactly
the expected byte sequence. -/
theorem c5_headers_to_vector_utf8 (r : HttpResponse) :
    HttpResponse.HeadersToVector r =
      (HttpResponse.HeadersToString r).toUTF8.data.toList ∧
    HttpResponse.HeadersToVector
        ⟨200, HttpProtocolVersion.HTTP1_1, "HTTP/1.1 200 OK",
         [("Content-Type", "text/html"), ("X-Test", "1")]⟩ =
      [72, 84, 84, 80, 47, 49, 46, 49, 32, 50, 48, 48, 32, 79, 75, 13, 10,
       67, 111, 110, 116, 101, 110, 116, 45, 84, 121, 112, 101, 58, 32, 116,
       101, 120, 116, 47, 104, 116, 109, 108, 13, 10, 88, 45, 84, 101, 115,
       116, 58, 32, 49, 13, 10, 13, 10] :=
  ⟨rfl, by decide⟩

/-- C6: a successful status callback resolves the protocol version from the
reported major/minor pair (major 1 minor 0 gives HTTP1, major 1 other minor
gives HTTP1_1, major 2 gives HTTP2, any other major defaults to HTTP1_1)
and then runs the code-setter with the reported status code on the
version-updated transaction, returning 0. -/
theorem c6_on_status_sets_version_then_code (p : HttpParserState)
    (t : HttpResponse) (a : List UInt8) (len : Nat) (ht : p.data = some t) :
    HttpResponse.OnStatus (some p) a len =
      (0, some { p with data := some (HttpResponse.SetStatusCode
        { t with m_httpVersion :=
            HttpResponse.versionFromParsed p.http_major p.http_minor }
        p.status_code) }) ∧
    (p.http_major = 1 → p.http_minor = 0 →
      HttpResponse.versionFromParsed p.http_major p.http_minor =
        HttpProtocolVersion.HTTP1) ∧
    (p.http_major = 1 → p.http_minor ≠ 0 →
      HttpResponse.versionFromParsed p.http_major p.http_minor =
        HttpProtocolVersion.HTTP1_1) ∧
    (p.http_major = 2 →
      HttpResponse.versionFromParsed p.http_major p.http_minor =
        HttpProtocolVersion.HTTP2) ∧
    (p.http_major ≠ 1 → p.http_major ≠ 2 →
      HttpResponse.versionFromParsed p.http_major p.http_minor =
        HttpProtocolVersion.HTTP1_1) := by
  cases p with
  | mk ma mi sc d =>
    cases d with
    | none => exact absurd ht (by simp)
    | some t0 =>
      have ht0 : t0 = t := Option.some.inj ht
      subst ht0
      refine ⟨rfl, ?_, ?_, ?_, ?_⟩
      · intro h1 h2
        subst h1; subst h2
        rfl
      · intro h1 h2
        subst h1
        simp [HttpResponse.versionFromParsed, h2]
      · intro h1
        subst h1
        rfl
      · intro h1 h2
        simp [HttpResponse.versionFromParsed, h1, h2]

/-- Witness for C6 at a concrete parser state reporting version 2.0 and
status code 404 with a resolvable transaction. -/
theorem c6_on_status_sets_version_then_code_witness :
    HttpResponse.OnStatus
        (some ⟨2, 0, 404, some ⟨0, HttpProtocolVersion.Unset, "", []⟩⟩) [] 0 =
      (0, some ⟨2, 0, 404, some (HttpResponse.SetStatusCode
        ⟨0, HttpResponse.versionFromParsed 2 0, "", []⟩ 404)⟩) :=
  (c6_on_status_sets_version_then_code
    ⟨2, 0, 404, some ⟨0, HttpProtocolVersion.Unset, "", []⟩⟩
    ⟨0, HttpProtocolVersion.Unset, "", []⟩ [] 0 rfl).1

/-- C7: the callback returns -1 exactly when the parser pointer is null or
its data slot holds no transaction; in that failure case the parser state
comes back unchanged, and in every other case the callback returns 0. -/
theorem c7_on_status_failure (parser : Option HttpParserState)
    (a : List UInt8) (len : Nat) :
    ((HttpResponse.OnStatus parser a len).1 = -1 ↔
      HttpResponse.contextMissing parser = true) ∧
    (HttpResponse.contextMissing parser = true →
      (HttpResponse.OnStatus parser a len).2 = parser) ∧
    (HttpResponse.contextMissing parser = false →
      (HttpResponse.OnStatus parser a len).1 = 0) := by
  cases parser with
  | none => simp [HttpResponse.OnStatus, HttpResponse.contextMissing]
  | some p =>
    cases p with
    | mk ma mi sc d =>
      cases d with
      | none => simp [HttpResponse.OnStatus, HttpResponse.contextMissing]
      | some t => simp [HttpResponse.OnStatus, HttpResponse.contextMissing]

/-- Witness for C7 at a concrete parser state whose data slot is empty: the
state is returned unchanged. -/
theorem c7_on_status_failure_witness :
    (HttpResponse.OnStatus (some ⟨1, 1, 200, none⟩) [] 0).2 =
      some ⟨1, 1, 200, none⟩ :=
  (c7_on_status_failure (some ⟨1, 1, 200, none⟩) [] 0).2.1 rfl

/-- C8: the raw reason-phrase bytes handed to the callback have no influence
on the returned signal or the resulting state: two invocations on the same
parser state that differ only in those bytes coincide. -/
theorem c8_reason_bytes_ignored (parser : Option HttpParserState)
    (a1 : List UInt8) (l1 : Nat) (a2 : List UInt8) (l2 : Nat) :
    HttpResponse.OnStatus parser a1 l1 = HttpResponse.OnStatus parser a2 l2 :=
  rfl

/-- C9: the text-setter overwrites the status line verbatim and leaves both
the stored status code and the protocol version unchanged; after a prior
code-setter call, the getter still reports that code. -/
theorem c9_status_string_frame (r : HttpResponse) (s : String) (c : Nat) :
    (HttpResponse.SetStatusString r s).m_statusString = s ∧
    HttpResponse.StatusCode (HttpResponse.SetStatusString r s) =
      HttpResponse.StatusCode r ∧
    (HttpResponse.SetStatusString r s).m_httpVersion = r.m_httpVersion ∧
    HttpResponse.StatusCode
      (HttpResponse.SetStatusString (HttpResponse.SetStatusCode r c) s) = c :=
  ⟨rfl, rfl, rfl, rfl⟩

/-- C10: the code-setter processes the sentinel 0 like any other
unrecognized code: under version HTTP1_1 the line becomes "HTTP/1.1 0 " and
the getter then reports 0, indistinguishable from the initial sentinel. -/
theorem c10_zero_code_like_unrecognized (r : HttpResponse)
    (hr : r.m_httpVersion = HttpProtocolVersion.HTTP1_1) :
    (HttpResponse.SetStatusCode r 0).m_statusString = "HTTP/1.1 0 " ∧
    HttpResponse.StatusCode (HttpResponse.SetStatusCode r 0) = 0 := by
  cases r with
  | mk sc v ss hs =>
    have hv : v = HttpProtocolVersion.HTTP1_1 := hr
    subst hv
    exact ⟨rfl, rfl⟩

/-- Witness for C10 at a concrete transaction carrying version HTTP1_1. -/
theorem c10_zero_code_like_unrecognized_witness :
    (HttpResponse.SetStatusCode
      ⟨0, HttpProtocolVersion.HTTP1_1, "", []⟩ 0).m_statusString =
      "HTTP/1.1 0 " ∧
    HttpResponse.StatusCode
      (HttpResponse.SetStatusCode ⟨0, HttpProtocolVersion.HTTP1_1, "", []⟩ 0) =
      0 :=
  c10_zero_code_like_unrecognized ⟨0, HttpProtocolVersion.HTTP1_1, "", []⟩ rfl

end HttpFilteringEngine
